import Mathlib

/-!
Verification of the Game-of-Life implementation in `main.go`.

The automaton state is the set of live cells, a map from integer coordinate
pairs to unit in the Go source (`World.liveCells`), modelled here as a
`Finset (Int × Int)`.  Each Go function operating on that state is embedded
as a Lean function below; the grid geometry constants are copied verbatim.
-/

/-- Grid coordinate, `type tile struct { x, y int }` in the source. -/
abbrev Cell := Int × Int

/-- Constant `screenWidth = 800`. -/
def screenWidth : Nat := 800

/-- Constant `screenHeight = 800`. -/
def screenHeight : Nat := 800

/-- Constant `tileSize = 20`. -/
def tileSize : Nat := 20

/-- Constant `gridTop = 20`. -/
def gridTop : Nat := 20

/-- Constant `gridWidth = screenWidth / tileSize`. -/
def gridWidth : Nat := screenWidth / tileSize

/-- Constant `gridHeight = screenHeight / tileSize`. -/
def gridHeight : Nat := screenHeight / tileSize

/-- The mutable fields of the Go `World` relevant to the automaton:
the live-cell set and the `isSimulating` flag (`running` vs `paused`). -/
structure World where
  liveCells : Finset Cell
  isSimulating : Bool
  deriving DecidableEq

/-- The eight neighbor offsets produced by the double loop
`for i := -1; i <= 1; i++ { for j := -1; j <= 1; j++ { if i == 0 && j == 0 continue ... } }`
in source order. -/
def neighborOffsets : List (Int × Int) :=
  [(-1, -1), (-1, 0), (-1, 1), (0, -1), (0, 1), (1, -1), (1, 0), (1, 1)]

/-- Function `countLiveNeighbors`: counts, among the 8 cells at Chebyshev distance 1
from `(x, y)`, those present in the live-cell set.  No bounds check. -/
def countLiveNeighbors (live : Finset Cell) (x y : Int) : Nat :=
  neighborOffsets.countP (fun o => decide ((x + o.1, y + o.2) ∈ live))

/-- The inner double loop of `SimulateWorld`: for each neighbor of `cell`,
if that neighbor has exactly 3 live neighbors it is inserted into the
accumulating next generation. -/
def birthCandidates (live : Finset Cell) (cell : Cell) (acc : Finset Cell) : Finset Cell :=
  neighborOffsets.foldl
    (fun a o =>
      if countLiveNeighbors live (cell.1 + o.1) (cell.2 + o.2) = 3 then
        insert (cell.1 + o.1, cell.2 + o.2) a
      else a)
    acc

/-- One iteration of the `for cell := range w.liveCells` loop body of
`SimulateWorld`: insert `cell` if it has 2 or 3 live neighbors, then process
its 8 neighbors. -/
def stepCell (live : Finset Cell) (acc : Finset Cell) (cell : Cell) : Finset Cell :=
  birthCandidates live cell
    (if countLiveNeighbors live cell.1 cell.2 = 2 ∨ countLiveNeighbors live cell.1 cell.2 = 3 then
      insert cell acc
    else acc)

/-- The loop of `SimulateWorld` over the live-cell map, for one concrete iteration
order `order` of the map (Go map iteration order is unspecified). -/
def simulateWorldOver (live : Finset Cell) (order : List Cell) : Finset Cell :=
  order.foldl (stepCell live) ∅

/-- Everything a single live cell contributes to the next generation:
itself when it has 2 or 3 live neighbors, plus each of its 8 neighbors
having exactly 3 live neighbors. -/
def cellContribution (live : Finset Cell) (cell : Cell) : Finset Cell :=
  stepCell live ∅ cell

/-- The next generation computed by `SimulateWorld`: the union over all live
cells of their contributions.  Stated order-independently; the theorem
`simulateWorldOver_eq_simulateWorld` proves this equal to the loop
`simulateWorldOver` for every iteration order of the map. -/
def simulateWorld (live : Finset Cell) : Finset Cell :=
  live.sup (cellContribution live)

/-- Function `SimulateWorld` acting on the whole world: installs the next generation
and sets `isSimulating` to true (lines 186-187 of the source). -/
def stepWorld (w : World) : World :=
  { liveCells := simulateWorld w.liveCells, isSimulating := true }

/-- The grid-coordinate part of `handleMouseClick` (lines 111-119): the
bounds check followed by the toggle of the clicked cell. -/
def toggleCell (w : World) (x y : Int) : World :=
  if x < 0 ∨ (gridWidth : Int) ≤ x ∨ y < 0 ∨ (gridHeight : Int) ≤ y then w
  else if (x, y) ∈ w.liveCells then
    { w with liveCells := w.liveCells.erase (x, y) }
  else
    { w with liveCells := insert (x, y) w.liveCells }

/-- Go integer division truncates toward zero, which is `Int.tdiv`. -/
def goDiv (a b : Int) : Int := Int.tdiv a b

/-- Function `handleMouseClick` with the mouse button held: converts pixel
coordinates to a grid coordinate (`cellX := x / tileSize`,
`cellY := (y - gridTop) / tileSize`, Go division truncating toward zero)
and toggles that cell. -/
def handleMouseClick (w : World) (x y : Int) : World :=
  toggleCell w (goDiv x (tileSize : Int)) (goDiv (y - (gridTop : Int)) (tileSize : Int))

/-- The reset branch of `Game.Update` (R key, lines 256-259): empty the
live-cell set and stop simulating. -/
def resetWorld (_w : World) : World :=
  { liveCells := ∅, isSimulating := false }

/-- Model of `rand.Intn`: it yields a value in the range below `n`; we model the random stream
abstractly as a function `r : Nat → Nat` of draw indices and reduce each
draw into range with `% n`. -/
def randIntn (r : Nat → Nat) (i n : Nat) : Nat := r i % n

/-- The number of insertion attempts chosen by `generateRandomCells`:
`rand.Intn((totalCells / 5) + totalCells/5)` with
`totalCells = gridWidth * gridHeight`. -/
def numAttempts (r : Nat → Nat) : Nat :=
  randIntn r 0 (gridWidth * gridHeight / 5 + gridWidth * gridHeight / 5)

/-- Function `generateRandomCells`: replaces the live-cell set with `numAttempts r`
cells drawn at `(rand.Intn(gridWidth), rand.Intn(gridHeight))`; draw `0` is
the attempt count and draws `2*i+1`, `2*i+2` give the coordinates of attempt `i`.
`isSimulating` is not touched. -/
def generateRandomCells (r : Nat → Nat) (w : World) : World :=
  { w with
    liveCells :=
      (List.range (numAttempts r)).foldl
        (fun a i =>
          insert ((randIntn r (2 * i + 1) gridWidth : Int),
                  (randIntn r (2 * i + 2) gridHeight : Int)) a)
        ∅ }

/-- The literal coordinate list of `generateGosperGliderGun`. -/
def gliderGunList : List Cell :=
  [(1, 5), (1, 6), (2, 5), (2, 6),
   (11, 5), (11, 6), (11, 7),
   (12, 4), (12, 8),
   (13, 3), (13, 9),
   (14, 3), (14, 9),
   (15, 6),
   (16, 4), (16, 8),
   (17, 5), (17, 6), (17, 7),
   (18, 6),
   (21, 3), (21, 4), (21, 5),
   (22, 3), (22, 4), (22, 5),
   (23, 2), (23, 6),
   (25, 1), (25, 2), (25, 6), (25, 7),
   (35, 3), (35, 4),
   (36, 3), (36, 4)]

/-- The live-cell set produced by inserting `gliderGunList` into a fresh map. -/
def gosperGliderGunCells : Finset Cell :=
  gliderGunList.foldl (fun a c => insert c a) ∅

/-- Function `generateGosperGliderGun`: clears the live-cell set and inserts the
fixed pattern.  `isSimulating` is not touched. -/
def generateGosperGliderGun (w : World) : World :=
  { w with liveCells := gosperGliderGunCells }

/-- A small in-grid pattern used as concrete input: a vertical blinker in
the leftmost column. -/
def blinker : Finset Cell := {(0, 0), (0, 1), (0, 2)}

/-- The blinker world, paused. -/
def blinkerWorld : World := { liveCells := blinker, isSimulating := false }

/-- The empty world, paused. -/
def emptyWorld : World := { liveCells := ∅, isSimulating := false }

/-- Membership in a left fold that conditionally inserts `f o`. -/
theorem mem_foldl_insertIf {α β : Type} [DecidableEq β] (f : α → β) (P : α → Prop)
    [DecidablePred P] (l : List α) (acc : Finset β) (c : β) :
    c ∈ l.foldl (fun a o => if P o then insert (f o) a else a) acc ↔
      c ∈ acc ∨ ∃ o ∈ l, P o ∧ c = f o := by
  induction l generalizing acc with
  | nil => simp
  | cons hd tl ih =>
      rw [List.foldl_cons, ih]
      by_cases hP : P hd
      · simp only [if_pos hP, Finset.mem_insert, List.mem_cons]
        constructor
        · rintro (h | h)
          · rcases h with h | h
            · exact Or.inr ⟨hd, Or.inl rfl, hP, h⟩
            · exact Or.inl h
          · rcases h with ⟨o, ho, hPo, rfl⟩
            exact Or.inr ⟨o, Or.inr ho, hPo, rfl⟩
        · rintro (h | ⟨o, ho, hPo, rfl⟩)
          · exact Or.inl (Or.inr h)
          · rcases ho with rfl | ho
            · exact Or.inl (Or.inl rfl)
            · exact Or.inr ⟨o, ho, hPo, rfl⟩
      · simp only [if_neg hP, List.mem_cons]
        constructor
        · rintro (h | ⟨o, ho, hPo, rfl⟩)
          · exact Or.inl h
          · exact Or.inr ⟨o, Or.inr ho, hPo, rfl⟩
        · rintro (h | ⟨o, ho, hPo, rfl⟩)
          · exact Or.inl h
          · rcases ho with rfl | ho
            · exact absurd hPo hP
            · exact Or.inr ⟨o, ho, hPo, rfl⟩

/-- Membership in a left fold that unconditionally inserts `f o`. -/
theorem mem_foldl_insert {α β : Type} [DecidableEq β] (f : α → β)
    (l : List α) (acc : Finset β) (c : β) :
    c ∈ l.foldl (fun a o => insert (f o) a) acc ↔ c ∈ acc ∨ ∃ o ∈ l, c = f o := by
  induction l generalizing acc with
  | nil => simp
  | cons hd tl ih =>
      rw [List.foldl_cons, ih]
      simp only [Finset.mem_insert, List.mem_cons]
      constructor
      · rintro (h | h)
        · rcases h with h | h
          · exact Or.inr ⟨hd, Or.inl rfl, h⟩
          · exact Or.inl h
        · rcases h with ⟨o, ho, rfl⟩
          exact Or.inr ⟨o, Or.inr ho, rfl⟩
      · rintro (h | ⟨o, ho, rfl⟩)
        · exact Or.inl (Or.inr h)
        · rcases ho with rfl | ho
          · exact Or.inl (Or.inl rfl)
          · exact Or.inr ⟨o, ho, rfl⟩

/-- Membership in the birth part of the loop body. -/
theorem mem_birthCandidates (live : Finset Cell) (cell : Cell) (acc : Finset Cell) (c : Cell) :
    c ∈ birthCandidates live cell acc ↔
      c ∈ acc ∨ ∃ o ∈ neighborOffsets,
        c = (cell.1 + o.1, cell.2 + o.2) ∧ countLiveNeighbors live c.1 c.2 = 3 := by
  unfold birthCandidates
  refine Iff.trans
    (mem_foldl_insertIf (fun o : Int × Int => ((cell.1 + o.1, cell.2 + o.2) : Cell))
      (fun o : Int × Int => countLiveNeighbors live (cell.1 + o.1) (cell.2 + o.2) = 3)
      neighborOffsets acc c) ?_
  constructor
  · rintro (h | ⟨o, ho, hc, rfl⟩)
    · exact Or.inl h
    · exact Or.inr ⟨o, ho, rfl, hc⟩
  · rintro (h | ⟨o, ho, rfl, hc⟩)
    · exact Or.inl h
    · exact Or.inr ⟨o, ho, hc, rfl⟩

/-- Membership after one full loop-body iteration of `SimulateWorld`. -/
theorem mem_stepCell (live : Finset Cell) (acc : Finset Cell) (cell : Cell) (c : Cell) :
    c ∈ stepCell live acc cell ↔
      c ∈ acc ∨
        (c = cell ∧
          (countLiveNeighbors live c.1 c.2 = 2 ∨ countLiveNeighbors live c.1 c.2 = 3)) ∨
        (∃ o ∈ neighborOffsets,
          c = (cell.1 + o.1, cell.2 + o.2) ∧ countLiveNeighbors live c.1 c.2 = 3) := by
  unfold stepCell
  rw [mem_birthCandidates]
  by_cases h : countLiveNeighbors live cell.1 cell.2 = 2 ∨ countLiveNeighbors live cell.1 cell.2 = 3
  · rw [if_pos h, Finset.mem_insert]
    constructor
    · rintro ((rfl | hacc) | hb)
      · exact Or.inr (Or.inl ⟨rfl, h⟩)
      · exact Or.inl hacc
      · exact Or.inr (Or.inr hb)
    · rintro (hacc | ⟨rfl, _⟩ | hb)
      · exact Or.inl (Or.inr hacc)
      · exact Or.inl (Or.inl rfl)
      · exact Or.inr hb
  · rw [if_neg h]
    constructor
    · rintro (hacc | hb)
      · exact Or.inl hacc
      · exact Or.inr (Or.inr hb)
    · rintro (hacc | ⟨rfl, hcnt⟩ | hb)
      · exact Or.inl hacc
      · exact absurd hcnt h
      · exact Or.inr hb

/-- What one iterated cell makes a given cell contribute to the next generation. -/
def nextGenCond (live : Finset Cell) (cell c : Cell) : Prop :=
  (c = cell ∧ (countLiveNeighbors live c.1 c.2 = 2 ∨ countLiveNeighbors live c.1 c.2 = 3)) ∨
  (∃ o ∈ neighborOffsets, c = (cell.1 + o.1, cell.2 + o.2) ∧ countLiveNeighbors live c.1 c.2 = 3)

/-- Membership in the loop of `SimulateWorld` run over any iteration order. -/
theorem mem_foldl_stepCell (live : Finset Cell) (order : List Cell) (acc : Finset Cell) (c : Cell) :
    c ∈ order.foldl (stepCell live) acc ↔ c ∈ acc ∨ ∃ cell ∈ order, nextGenCond live cell c := by
  induction order generalizing acc with
  | nil => simp
  | cons hd tl ih =>
      rw [List.foldl_cons, ih, mem_stepCell]
      unfold nextGenCond
      simp only [List.mem_cons]
      constructor
      · rintro (h | h)
        · rcases h with h | h | h
          · exact Or.inl h
          · exact Or.inr ⟨hd, Or.inl rfl, Or.inl h⟩
          · exact Or.inr ⟨hd, Or.inl rfl, Or.inr h⟩
        · rcases h with ⟨cell, hcell, hc⟩
          exact Or.inr ⟨cell, Or.inr hcell, hc⟩
      · rintro (h | ⟨cell, hcell, hc⟩)
        · exact Or.inl (Or.inl h)
        · rcases hcell with rfl | hcell
          · rcases hc with hc | hc
            · exact Or.inl (Or.inr (Or.inl hc))
            · exact Or.inl (Or.inr (Or.inr hc))
          · exact Or.inr ⟨cell, hcell, hc⟩

/-- Membership in the next generation, existential form. -/
theorem mem_simulateWorld_raw (live : Finset Cell) (c : Cell) :
    c ∈ simulateWorld live ↔ ∃ cell ∈ live, nextGenCond live cell c := by
  unfold simulateWorld
  rw [Finset.mem_sup]
  constructor
  · rintro ⟨cell, hcell, hc⟩
    have h := (mem_foldl_stepCell live [cell] ∅ c).mp (by simpa [simulateWorldOver] using hc)
    rcases h with h | ⟨cell2, hcell2, hc2⟩
    · simp at h
    · simp only [List.mem_singleton] at hcell2
      exact ⟨cell, hcell, hcell2 ▸ hc2⟩
  · rintro ⟨cell, hcell, hc⟩
    refine ⟨cell, hcell, ?_⟩
    have h := (mem_foldl_stepCell live [cell] ∅ c).mpr (Or.inr ⟨cell, by simp, hc⟩)
    simpa using h

/-- The eight neighbor offsets are closed under negation. -/
theorem neg_mem_neighborOffsets : ∀ o ∈ neighborOffsets, (-o.1, -o.2) ∈ neighborOffsets := by
  decide

/-- The live-neighbor count is positive iff some offset hits a live cell. -/
theorem countLiveNeighbors_pos_iff (live : Finset Cell) (x y : Int) :
    0 < countLiveNeighbors live x y ↔ ∃ o ∈ neighborOffsets, (x + o.1, y + o.2) ∈ live := by
  unfold countLiveNeighbors
  rw [List.countP_pos_iff]
  simp

/-- Cell `c` is a neighbor of some live cell iff its live-neighbor count is positive. -/
theorem exists_live_neighbor_iff (live : Finset Cell) (c : Cell) :
    (∃ cell ∈ live, ∃ o ∈ neighborOffsets, c = (cell.1 + o.1, cell.2 + o.2)) ↔
      0 < countLiveNeighbors live c.1 c.2 := by
  rw [countLiveNeighbors_pos_iff]
  constructor
  · rintro ⟨cell, hcell, o, ho, rfl⟩
    refine ⟨(-o.1, -o.2), neg_mem_neighborOffsets o ho, ?_⟩
    have h1 : cell.1 + o.1 + -o.1 = cell.1 := by ring
    have h2 : cell.2 + o.2 + -o.2 = cell.2 := by ring
    simpa [h1, h2] using hcell
  · rintro ⟨o, ho, hmem⟩
    refine ⟨(c.1 + o.1, c.2 + o.2), hmem, (-o.1, -o.2), neg_mem_neighborOffsets o ho, ?_⟩
    have h1 : c.1 + o.1 + -o.1 = c.1 := by ring
    have h2 : c.2 + o.2 + -o.2 = c.2 := by ring
    rw [h1, h2]

/-- The Game-of-Life characterization of the next generation. -/
theorem mem_simulateWorld (live : Finset Cell) (c : Cell) :
    c ∈ simulateWorld live ↔
      (c ∈ live ∧ (countLiveNeighbors live c.1 c.2 = 2 ∨ countLiveNeighbors live c.1 c.2 = 3)) ∨
      (0 < countLiveNeighbors live c.1 c.2 ∧ countLiveNeighbors live c.1 c.2 = 3) := by
  rw [mem_simulateWorld_raw]
  unfold nextGenCond
  constructor
  · rintro ⟨cell, hcell, hc | hc⟩
    · rcases hc with ⟨rfl, hcnt⟩
      exact Or.inl ⟨hcell, hcnt⟩
    · rcases hc with ⟨o, ho, hco, hcnt⟩
      refine Or.inr ⟨?_, hcnt⟩
      exact (exists_live_neighbor_iff live c).mp ⟨cell, hcell, o, ho, hco⟩
  · rintro (⟨hmem, hcnt⟩ | ⟨hpos, hcnt⟩)
    · exact ⟨c, hmem, Or.inl ⟨rfl, hcnt⟩⟩
    · rcases (exists_live_neighbor_iff live c).mpr hpos with ⟨cell, hcell, o, ho, hco⟩
      exact ⟨cell, hcell, Or.inr ⟨o, ho, hco, hcnt⟩⟩

/-- The loop of `SimulateWorld` computes `simulateWorld` for every iteration
order of the live-cell map. -/
theorem simulateWorldOver_eq_simulateWorld (live : Finset Cell) (order : List Cell)
    (h : ∀ c, c ∈ order ↔ c ∈ live) :
    simulateWorldOver live order = simulateWorld live := by
  ext c
  rw [simulateWorldOver, mem_foldl_stepCell, mem_simulateWorld_raw]
  simp only [Finset.not_mem_empty, false_or]
  constructor
  · rintro ⟨cell, hcell, hc⟩
    exact ⟨cell, (h cell).mp hcell, hc⟩
  · rintro ⟨cell, hcell, hc⟩
    exact ⟨cell, (h cell).mpr hcell, hc⟩

theorem goDiv_twenty_eq_zero_of_neg (a : Int) (h1 : -20 < a) (h2 : a < 0) :
    goDiv a 20 = 0 := by
  unfold goDiv
  have ha : a = -(-a) := by ring
  rw [ha, Int.neg_tdiv, Int.tdiv_eq_ediv (by omega) (by omega)]
  omega

theorem goDiv_nonneg_bounds (a : Int) (h1 : 0 ≤ a) (h2 : a < 800) :
    0 ≤ goDiv a 20 ∧ goDiv a 20 < 40 := by
  unfold goDiv
  rw [Int.tdiv_eq_ediv h1 (by omega)]
  omega

theorem toggleCell_mem_flip (w : World) (x y : Int)
    (hx0 : 0 ≤ x) (hx1 : x < (gridWidth : Int)) (hy0 : 0 ≤ y) (hy1 : y < (gridHeight : Int)) :
    ((x, y) ∈ (toggleCell w x y).liveCells ↔ (x, y) ∉ w.liveCells) := by
  have hin : ¬(x < 0 ∨ (gridWidth : Int) ≤ x ∨ y < 0 ∨ (gridHeight : Int) ≤ y) := by
    push_neg
    exact ⟨hx0, hx1, hy0, hy1⟩
  unfold toggleCell
  rw [if_neg hin]
  by_cases hmem : (x, y) ∈ w.liveCells
  · rw [if_pos hmem]
    simp [Finset.not_mem_erase, hmem]
  · rw [if_neg hmem]
    simp [Finset.mem_insert_self, hmem]

/-- C1: the next generation installed by SimulateWorld follows the standard
Game-of-Life rule: a live cell survives iff its live-neighbor count is
exactly 2 or 3, and a dead cell becomes alive iff it is adjacent to at least
one live cell and its live-neighbor count is exactly 3. -/
theorem step_installs_life_rule (w : World) (c : Cell) :
    (c ∈ w.liveCells →
      (c ∈ (stepWorld w).liveCells ↔
        (countLiveNeighbors w.liveCells c.1 c.2 = 2 ∨
          countLiveNeighbors w.liveCells c.1 c.2 = 3))) ∧
    (c ∉ w.liveCells →
      (c ∈ (stepWorld w).liveCells ↔
        (0 < countLiveNeighbors w.liveCells c.1 c.2 ∧
          countLiveNeighbors w.liveCells c.1 c.2 = 3))) := by
  constructor
  · intro hmem
    rw [show (stepWorld w).liveCells = simulateWorld w.liveCells from rfl, mem_simulateWorld]
    constructor
    · rintro (⟨_, hcnt⟩ | ⟨_, hcnt⟩)
      · exact hcnt
      · exact Or.inr hcnt
    · intro hcnt
      exact Or.inl ⟨hmem, hcnt⟩
  · intro hmem
    rw [show (stepWorld w).liveCells = simulateWorld w.liveCells from rfl, mem_simulateWorld]
    constructor
    · rintro (⟨hm, _⟩ | h)
      · exact absurd hm hmem
      · exact h
    · exact Or.inr

/-- Witness for C1 at the blinker: the live cell (0,1) and the dead cell
(1,1). -/
theorem step_installs_life_rule_witness :
    (((0, 1) : Cell) ∈ blinkerWorld.liveCells ∧
      (((0, 1) : Cell) ∈ (stepWorld blinkerWorld).liveCells ↔
        (countLiveNeighbors blinkerWorld.liveCells 0 1 = 2 ∨
          countLiveNeighbors blinkerWorld.liveCells 0 1 = 3))) ∧
    (((1, 1) : Cell) ∉ blinkerWorld.liveCells ∧
      (((1, 1) : Cell) ∈ (stepWorld blinkerWorld).liveCells ↔
        (0 < countLiveNeighbors blinkerWorld.liveCells 1 1 ∧
          countLiveNeighbors blinkerWorld.liveCells 1 1 = 3))) :=
  ⟨⟨by decide, (step_installs_life_rule blinkerWorld (0, 1)).1 (by decide)⟩,
   ⟨by decide, (step_installs_life_rule blinkerWorld (1, 1)).2 (by decide)⟩⟩

/-- C8: SimulateWorld is deterministic: its loop yields the same output set
for any two iteration orders of the same live-cell map. -/
theorem step_deterministic (live : Finset Cell) (o1 o2 : List Cell)
    (h1 : o1.toFinset = live) (h2 : o2.toFinset = live) :
    simulateWorldOver live o1 = simulateWorldOver live o2 := by
  rw [simulateWorldOver_eq_simulateWorld live o1 (fun c => by rw [← h1, List.mem_toFinset]),
      simulateWorldOver_eq_simulateWorld live o2 (fun c => by rw [← h2, List.mem_toFinset])]

/-- Witness for C8: two enumeration orders of the blinker. -/
theorem step_deterministic_witness :
    [((0 : Int), (0 : Int)), (0, 1), (0, 2)].toFinset = blinker ∧
    [((0 : Int), (2 : Int)), (0, 0), (0, 1)].toFinset = blinker ∧
    simulateWorldOver blinker [((0 : Int), (0 : Int)), (0, 1), (0, 2)] =
      simulateWorldOver blinker [((0 : Int), (2 : Int)), (0, 0), (0, 1)] :=
  ⟨by decide, by decide, step_deterministic blinker _ _ (by decide) (by decide)⟩

/-- C9: SimulateWorld does not clip to the declared grid: the blinker lies
wholly inside the grid, yet its next generation contains (-1, 1), whose
x-coordinate is negative, and an out-of-grid cell is a valid lookup key in
neighbor counting. -/
theorem step_escapes_grid :
    blinker.filter
        (fun c => 0 ≤ c.1 ∧ c.1 < (gridWidth : Int) ∧ 0 ≤ c.2 ∧ c.2 < (gridHeight : Int)) =
      blinker ∧
    ((-1, 1) : Cell) ∈ simulateWorld blinker ∧ (-1 : Int) < 0 ∧
    0 < countLiveNeighbors {((-1, 1) : Cell)} 0 1 := by
  decide

/-- C3: toggling an out-of-range coordinate is a silent no-op. -/
theorem toggleCell_out_of_range (w : World) (x y : Int)
    (h : x < 0 ∨ (gridWidth : Int) ≤ x ∨ y < 0 ∨ (gridHeight : Int) ≤ y) :
    toggleCell w x y = w := by
  unfold toggleCell
  rw [if_pos h]

/-- Witness for C3: toggling at x = -1 leaves the blinker world unchanged. -/
theorem toggleCell_out_of_range_witness :
    ((-1 : Int) < 0 ∨ (gridWidth : Int) ≤ -1 ∨ (0 : Int) < 0 ∨ (gridHeight : Int) ≤ 0) ∧
    toggleCell blinkerWorld (-1) 0 = blinkerWorld :=
  ⟨Or.inl (by decide), toggleCell_out_of_range blinkerWorld (-1) 0 (Or.inl (by decide))⟩

/-- C4: for in-range coordinates, toggling the same cell twice restores the
original live-cell set. -/
theorem toggleCell_involution (w : World) (x y : Int)
    (hx0 : 0 ≤ x) (hx1 : x < (gridWidth : Int)) (hy0 : 0 ≤ y) (hy1 : y < (gridHeight : Int)) :
    toggleCell (toggleCell w x y) x y = w := by
  have hin : ¬(x < 0 ∨ (gridWidth : Int) ≤ x ∨ y < 0 ∨ (gridHeight : Int) ≤ y) := by
    push_neg
    exact ⟨hx0, hx1, hy0, hy1⟩
  by_cases hmem : (x, y) ∈ w.liveCells
  · have h1 : toggleCell w x y = { w with liveCells := w.liveCells.erase (x, y) } := by
      unfold toggleCell
      rw [if_neg hin, if_pos hmem]
    have h2 : (x, y) ∉ ({ w with liveCells := w.liveCells.erase (x, y) } : World).liveCells :=
      Finset.not_mem_erase _ _
    rw [h1]
    unfold toggleCell
    rw [if_neg hin, if_neg h2]
    cases w with
    | mk lc sim =>
        simp only [Finset.insert_erase hmem]
  · have h1 : toggleCell w x y = { w with liveCells := insert (x, y) w.liveCells } := by
      unfold toggleCell
      rw [if_neg hin, if_neg hmem]
    have h2 : (x, y) ∈ ({ w with liveCells := insert (x, y) w.liveCells } : World).liveCells :=
      Finset.mem_insert_self _ _
    rw [h1]
    unfold toggleCell
    rw [if_neg hin, if_pos h2]
    cases w with
    | mk lc sim =>
        simp only [Finset.erase_insert hmem]

/-- Witness for C4: double toggle at (3, 4) on the blinker world. -/
theorem toggleCell_involution_witness :
    (0 : Int) ≤ 3 ∧ (3 : Int) < (gridWidth : Int) ∧ (0 : Int) ≤ 4 ∧
    (4 : Int) < (gridHeight : Int) ∧
    toggleCell (toggleCell blinkerWorld 3 4) 3 4 = blinkerWorld :=
  ⟨by decide, by decide, by decide, by decide,
   toggleCell_involution blinkerWorld 3 4 (by decide) (by decide) (by decide) (by decide)⟩

/-- C5: the reset branch always empties the live-cell set and pauses. -/
theorem reset_spec (w : World) :
    (resetWorld w).liveCells = ∅ ∧ (resetWorld w).isSimulating = false :=
  ⟨rfl, rfl⟩

/-- Witness for C5 at a running non-empty world. -/
theorem reset_spec_witness :
    (resetWorld { liveCells := blinker, isSimulating := true }).liveCells = ∅ ∧
    (resetWorld { liveCells := blinker, isSimulating := true }).isSimulating = false :=
  reset_spec { liveCells := blinker, isSimulating := true }

/-- C7: only SimulateWorld sets isSimulating; randomize and pattern load
leave it unchanged. -/
theorem only_step_sets_running (w : World) (r : Nat → Nat) :
    (stepWorld w).isSimulating = true ∧
    (generateRandomCells r w).isSimulating = w.isSimulating ∧
    (generateGosperGliderGun w).isSimulating = w.isSimulating :=
  ⟨rfl, rfl, rfl⟩

/-- Witness for C7 at the paused blinker world. -/
theorem only_step_sets_running_witness :
    (stepWorld blinkerWorld).isSimulating = true ∧
    (generateRandomCells (fun _ => 0) blinkerWorld).isSimulating = blinkerWorld.isSimulating ∧
    (generateGosperGliderGun blinkerWorld).isSimulating = blinkerWorld.isSimulating :=
  only_step_sets_running blinkerWorld (fun _ => 0)

/-- C6 counterexample: loading the pattern from a running world leaves it
running, so the mode is not always paused afterwards. -/
theorem loadPattern_not_always_paused :
    ¬((generateGosperGliderGun { liveCells := ∅, isSimulating := true }).isSimulating = false) := by
  decide

/-- C6 (amended): loading the built-in pattern replaces the live-cell set
with exactly the 36 documented coordinates and leaves the simulation mode
unchanged. -/
theorem loadPattern_spec (w : World) :
    (generateGosperGliderGun w).liveCells = gliderGunList.toFinset ∧
    (generateGosperGliderGun w).liveCells.card = 36 ∧
    (∀ c, c ∈ (generateGosperGliderGun w).liveCells ↔ c ∈ gliderGunList) ∧
    (generateGosperGliderGun w).isSimulating = w.isSimulating := by
  refine ⟨?_, ?_, ?_, rfl⟩
  · show gosperGliderGunCells = gliderGunList.toFinset
    decide
  · show gosperGliderGunCells.card = 36
    decide
  · intro c
    show c ∈ gosperGliderGunCells ↔ c ∈ gliderGunList
    have h : gosperGliderGunCells = gliderGunList.toFinset := by decide
    rw [h, List.mem_toFinset]

/-- Witness for C6 at a running world. -/
theorem loadPattern_spec_witness :
    (generateGosperGliderGun { liveCells := blinker, isSimulating := true }).liveCells =
      gliderGunList.toFinset ∧
    (generateGosperGliderGun { liveCells := blinker, isSimulating := true }).isSimulating =
      ({ liveCells := blinker, isSimulating := true } : World).isSimulating :=
  ⟨(loadPattern_spec { liveCells := blinker, isSimulating := true }).1,
   (loadPattern_spec { liveCells := blinker, isSimulating := true }).2.2.2⟩

/-- C2 counterexample: with the random stream that always returns 0 the
chosen attempt count is 0, strictly below totalCells/5 = 320, refuting the
claimed lower bound. -/
theorem randomize_count_below_claimed_range :
    numAttempts (fun _ => 0) = 0 ∧ 0 < gridWidth * gridHeight / 5 := by
  decide

/-- C2 (amended): generateRandomCells replaces the live-cell set with the
attempted cells; the attempt count is in [0, 2*totalCells/5) rather than
[totalCells/5, 2*totalCells/5), and every attempted coordinate lies in
[0, gridWidth) x [0, gridHeight). -/
theorem generateRandomCells_spec (r : Nat → Nat) (w : World) :
    numAttempts r < 2 * (gridWidth * gridHeight) / 5 ∧
    (generateRandomCells r w).isSimulating = w.isSimulating ∧
    ∀ c, c ∈ (generateRandomCells r w).liveCells ↔
      ∃ i < numAttempts r,
        c = ((randIntn r (2 * i + 1) gridWidth : Int),
             (randIntn r (2 * i + 2) gridHeight : Int)) ∧
        0 ≤ c.1 ∧ c.1 < (gridWidth : Int) ∧ 0 ≤ c.2 ∧ c.2 < (gridHeight : Int) := by
  refine ⟨?_, rfl, ?_⟩
  · have h : 2 * (gridWidth * gridHeight) / 5 = 640 := rfl
    rw [h]
    have h2 : numAttempts r = r 0 % 640 := rfl
    rw [h2]
    exact Nat.mod_lt _ (by decide)
  · intro c
    have key := mem_foldl_insert
      (fun i : Nat => (((randIntn r (2 * i + 1) gridWidth : Nat) : Int),
                       ((randIntn r (2 * i + 2) gridHeight : Nat) : Int)))
      (List.range (numAttempts r)) ∅ c
    refine Iff.trans key ?_
    simp only [Finset.not_mem_empty, false_or, List.mem_range]
    constructor
    · rintro ⟨i, hi, rfl⟩
      refine ⟨i, hi, rfl, ?_, ?_, ?_, ?_⟩
      · exact Int.natCast_nonneg _
      · show ((randIntn r (2 * i + 1) gridWidth : Nat) : Int) < (gridWidth : Int)
        have h := Nat.mod_lt (r (2 * i + 1)) (show 0 < gridWidth by decide)
        exact_mod_cast h
      · exact Int.natCast_nonneg _
      · show ((randIntn r (2 * i + 2) gridHeight : Nat) : Int) < (gridHeight : Int)
        have h := Nat.mod_lt (r (2 * i + 2)) (show 0 < gridHeight by decide)
        exact_mod_cast h
    · rintro ⟨i, hi, rfl, _⟩
      exact ⟨i, hi, rfl⟩

/-- Witness for C2 at the constant-zero stream and the empty world. -/
theorem generateRandomCells_spec_witness :
    numAttempts (fun _ => 0) < 2 * (gridWidth * gridHeight) / 5 ∧
    (generateRandomCells (fun _ => 0) emptyWorld).isSimulating = emptyWorld.isSimulating :=
  ⟨(generateRandomCells_spec (fun _ => 0) emptyWorld).1,
   (generateRandomCells_spec (fun _ => 0) emptyWorld).2.1⟩

/-- C10: because the pixel-to-grid conversion truncates toward zero, a click
in the top margin with pixel y between 1 and gridTop - 1 maps to grid row 0
and toggles that cell, and a click just left of the grid with pixel x
between -(tileSize - 1) and -1 maps to grid column 0 and toggles that cell;
neither click is ignored. -/
theorem margin_clicks_toggle (w : World) (x y : Int) :
    (0 ≤ x → x < (screenWidth : Int) → 1 ≤ y → y ≤ (gridTop : Int) - 1 →
      goDiv (y - (gridTop : Int)) (tileSize : Int) = 0 ∧
      ((goDiv x (tileSize : Int), (0 : Int)) ∈ (handleMouseClick w x y).liveCells ↔
        (goDiv x (tileSize : Int), (0 : Int)) ∉ w.liveCells)) ∧
    (-(tileSize : Int) + 1 ≤ x → x ≤ -1 → (gridTop : Int) ≤ y →
        y < (gridTop : Int) + (gridHeight : Int) * (tileSize : Int) →
      goDiv x (tileSize : Int) = 0 ∧
      (((0 : Int), goDiv (y - (gridTop : Int)) (tileSize : Int)) ∈
          (handleMouseClick w x y).liveCells ↔
        ((0 : Int), goDiv (y - (gridTop : Int)) (tileSize : Int)) ∉ w.liveCells)) := by
  have htile : (tileSize : Int) = 20 := rfl
  have htop : (gridTop : Int) = 20 := rfl
  have hsw : (screenWidth : Int) = 800 := rfl
  have hgw : (gridWidth : Int) = 40 := rfl
  have hgh : (gridHeight : Int) = 40 := rfl
  constructor
  · intro hx0 hx1 hy0 hy1
    rw [hsw] at hx1
    rw [htop] at hy1
    have hcy : goDiv (y - (gridTop : Int)) (tileSize : Int) = 0 := by
      rw [htop, htile]
      exact goDiv_twenty_eq_zero_of_neg (y - 20) (by omega) (by omega)
    refine ⟨hcy, ?_⟩
    have hcx : 0 ≤ goDiv x (tileSize : Int) ∧ goDiv x (tileSize : Int) < 40 := by
      rw [htile]
      exact goDiv_nonneg_bounds x hx0 (by omega)
    unfold handleMouseClick
    rw [hcy]
    exact toggleCell_mem_flip w (goDiv x (tileSize : Int)) 0
      hcx.1 (by rw [hgw]; exact hcx.2) le_rfl (by rw [hgh]; omega)
  · intro hx0 hx1 hy0 hy1
    rw [htile] at hx0
    rw [htop] at hy0
    rw [htop, htile, hgh] at hy1
    have hcx : goDiv x (tileSize : Int) = 0 := by
      rw [htile]
      exact goDiv_twenty_eq_zero_of_neg x (by omega) (by omega)
    refine ⟨hcx, ?_⟩
    have hcy : 0 ≤ goDiv (y - (gridTop : Int)) (tileSize : Int) ∧
        goDiv (y - (gridTop : Int)) (tileSize : Int) < 40 := by
      rw [htop, htile]
      exact goDiv_nonneg_bounds (y - 20) (by omega) (by omega)
    unfold handleMouseClick
    rw [hcx]
    exact toggleCell_mem_flip w 0 (goDiv (y - (gridTop : Int)) (tileSize : Int))
      le_rfl (by rw [hgw]; omega) hcy.1 (by rw [hgh]; exact hcy.2)

/-- Witness for C10: a click in the top margin at pixel (50, 5) and a click
left of the grid at pixel (-5, 130), both on the blinker world. -/
theorem margin_clicks_toggle_witness :
    (goDiv ((5 : Int) - (gridTop : Int)) (tileSize : Int) = 0 ∧
      ((goDiv 50 (tileSize : Int), (0 : Int)) ∈
          (handleMouseClick blinkerWorld 50 5).liveCells ↔
        (goDiv 50 (tileSize : Int), (0 : Int)) ∉ blinkerWorld.liveCells)) ∧
    (goDiv (-5) (tileSize : Int) = 0 ∧
      (((0 : Int), goDiv ((130 : Int) - (gridTop : Int)) (tileSize : Int)) ∈
          (handleMouseClick blinkerWorld (-5) 130).liveCells ↔
        ((0 : Int), goDiv ((130 : Int) - (gridTop : Int)) (tileSize : Int)) ∉
          blinkerWorld.liveCells)) :=
  ⟨(margin_clicks_toggle blinkerWorld 50 5).1
      (by decide) (by decide) (by decide) (by decide),
   (margin_clicks_toggle blinkerWorld (-5) 130).2
      (by decide) (by decide) (by decide) (by decide)⟩
